import Mathlib

/-!
Verification of the gaara-ai/backend pose evaluation & adaptation core.

This file shallowly embeds the algorithmic core of the repository —
`core/physics_engine.py`, `core/rule_engine.py`, `core/safety_engine.py`,
`core/correction_engine.py`, `core/progress_tracker.py` — and proves or
refutes the frozen claims about it.

Modelling conventions:
- Python `float`/`int` values are modelled as exact rationals `ℚ`; the
  arithmetic the claims are about (comparisons, `+`, `-`, `/`, `round(x, 2)`)
  is exact on the values involved.
- Python `dict`s are modelled as association lists `List (String × α)`
  (keys unique, insertion order preserved); `d[k]` is `List.lookup`, which
  is `none` when the key is missing, so code that indexes a possibly-missing
  key (a Python `KeyError`) is modelled in the `Option` monad.
- Python's substring test `pat in s` is `strContains s pat`.
- `round(x, 2)` uses round-half-to-even, as in Python 3.
-/

namespace Gaara

/-- Substring-as-prefix test on character lists. -/
def isPrefixList : List Char → List Char → Bool
  | [], _ => true
  | _ :: _, [] => false
  | a :: as, b :: bs => a == b && isPrefixList as bs

/-- Substring occurrence test on character lists (Python `pat in s`). -/
def hasSubstr : List Char → List Char → Bool
  | pat, [] => pat.isEmpty
  | pat, c :: rest => isPrefixList pat (c :: rest) || hasSubstr pat rest

/-- Python's `pat in s` on strings. -/
def strContains (s pat : String) : Bool :=
  hasSubstr pat.data s.data

/-- Floor of a rational, computed by floor division of numerator by
denominator. -/
def ratFloor (q : ℚ) : ℤ :=
  Int.fdiv q.num q.den

/-- Round a rational to the nearest integer, ties to even (Python `round`). -/
def roundHalfEven (q : ℚ) : ℤ :=
  let f := ratFloor q
  let r := q - f
  if r < 1/2 then f
  else if 1/2 < r then f + 1
  else if f % 2 = 0 then f else f + 1

/-- Python `round(q, 2)`. -/
def round2 (q : ℚ) : ℚ :=
  (roundHalfEven (q * 100) : ℚ) / 100

/-- Arithmetic mean of a list of rationals (`np.mean`); `0` on `[]`
(the code only takes means of nonempty lists). -/
def listMean (l : List ℚ) : ℚ :=
  l.sum / l.length

/-- Population variance of a list of rationals (`np.var`): the mean of the
squared deviations from the mean. -/
def listVar (l : List ℚ) : ℚ :=
  listMean (l.map fun x => (x - listMean l) * (x - listMean l))

/-- Python `max(a, b)` on rationals. -/
def pyMax (a b : ℚ) : ℚ :=
  if a < b then b else a

/-- Python slice `l[-n:]`: the last `min n l.length` elements. -/
def takeLast (n : ℕ) (l : List ℚ) : List ℚ :=
  l.drop (l.length - n)

/-!
## Physics engine (`core/physics_engine.py`)
-/

/-- `YogaPhysicsEngine.validate_angles`: every received joint angle must lie
in `[0, 180]`; the loop returns `False` at the first violation. -/
def validate_angles (angles : List (String × ℚ)) : Bool :=
  angles.all fun kv => decide (0 ≤ kv.2) && decide (kv.2 ≤ 180)

/-!
## Correction engine (`core/correction_engine.py`)

The corrections knowledge base maps a pose name to a dict of fields; the
code reads only the `correction_library` field (issue code → phrase), and
tests the pose entry for truthiness (`if not pose_knowledge`).
-/

/-- A pose's entry in the corrections knowledge base: field name ↦
issue-code-to-phrase table. An empty list is a falsy (empty) dict. -/
def CorrPoseKnowledge := List (String × List (String × String))

instance : DecidableEq CorrPoseKnowledge := by
  unfold CorrPoseKnowledge; infer_instance

/-- Result record of `YogaCorrectionEngine.generate_corrections`. -/
structure CorrectionResult where
  pose_name : String
  biomechanical_issues : List String
  verbal_corrections : List String
  priority_level : String
  deriving DecidableEq, Repr

/-- `YogaCorrectionEngine.generate_corrections`. -/
def generate_corrections (kb : List (String × CorrPoseKnowledge))
    (pose_name : String) (issues : List String) : CorrectionResult :=
  match kb.lookup pose_name with
  | none =>
      { pose_name := pose_name
        biomechanical_issues := issues
        verbal_corrections := ["Pose not found in knowledge base."]
        priority_level := "low" }
  | some pose_knowledge =>
      if pose_knowledge.isEmpty then
        { pose_name := pose_name
          biomechanical_issues := issues
          verbal_corrections := ["Pose not found in knowledge base."]
          priority_level := "low" }
      else if issues.isEmpty then
        { pose_name := pose_name
          biomechanical_issues := []
          verbal_corrections := ["Excellent alignment. Maintain steady breathing."]
          priority_level := "low" }
      else
        let correction_library :=
          (pose_knowledge.lookup "correction_library").getD []
        { pose_name := pose_name
          biomechanical_issues := issues
          verbal_corrections := issues.filterMap fun issue =>
            correction_library.lookup issue
          priority_level := if issues.length > 2 then "medium" else "low" }

/-!
## Rule engine (`core/rule_engine.py`)
-/

/-- A value in a pose rule set: a numeric threshold or a boolean flag
(the shapes occurring in `_get_default_rules`). -/
inductive RuleVal where
  | num (q : ℚ)
  | flag (b : Bool)
  deriving DecidableEq, Repr

/-- Numeric view of a rule value. In Python `bool` is a subtype of `int`
(`True == 1`, `False == 0`), so booleans participate in comparisons and
arithmetic with this value. -/
def RuleVal.toQ : RuleVal → ℚ
  | .num q => q
  | .flag b => if b then 1 else 0

/-- Python truthiness of a rule value. -/
def RuleVal.truthy : RuleVal → Bool
  | .num q => decide (q ≠ 0)
  | .flag b => b

/-- A 3D landmark `(x, y, z)`; the rule engine reads only the `y`
coordinate (index 1). -/
structure Vec3 where
  x : ℚ
  y : ℚ
  z : ℚ
  deriving DecidableEq, Repr

/-- `SuryaNamaskarRuleEngine._get_default_rules`: the static per-pose rule
table. Unknown pose names yield an empty rule set. -/
def get_default_rules (pose_name : String) : List (String × RuleVal) :=
  if pose_name = "parvatasana" then
    [("knee_angle_min", .num 170), ("elbow_angle_min", .num 170),
     ("hip_height_above_shoulder", .flag true), ("heel_height_max", .num (5/100))]
  else if pose_name = "hasta_uttanasana" then
    [("elbow_angle_min", .num 165), ("spine_extension_min", .num 10),
     ("arms_overhead", .flag true)]
  else if pose_name = "bhujangasana" then
    [("elbow_angle_min", .num 150), ("spine_extension_min", .num 15),
     ("pelvis_grounded", .flag true)]
  else if pose_name = "ashwa_sanchalanasana" then
    [("front_knee_angle_min", .num 80), ("front_knee_angle_max", .num 110),
     ("back_knee_angle_min", .num 160), ("spine_extension_min", .num 10)]
  else if pose_name = "pranamasana" then
    [("spine_vertical", .flag true), ("feet_together", .flag true)]
  else []

/-- Result record of `SuryaNamaskarRuleEngine.evaluate_pose`. -/
structure EvalResult where
  issues : List String
  alignment_score : ℚ
  passed_rules : List (String × Bool)
  failed_rules : List (String × Bool)
  deriving DecidableEq, Repr

/-- Running tally while evaluating the rule blocks. -/
structure EvalAcc where
  issues : List String
  passed_rules : List (String × Bool)
  failed_rules : List (String × Bool)
  total_rules : ℕ
  passed_count : ℕ

/-- The `knee_angle_min` block of `evaluate_pose`. Both knee angles are read
with `joint_angles[...]` (a `KeyError`, i.e. `none`, when absent); credit of
2 is granted only when both sides pass, otherwise the single issue
`knees_bent` is appended. -/
def kneeStep (joint_angles : List (String × ℚ)) (rules : List (String × RuleVal))
    (acc : EvalAcc) : Option EvalAcc :=
  match rules.lookup "knee_angle_min" with
  | none => some acc
  | some thr => do
      let lk ← joint_angles.lookup "left_knee_angle"
      let rk ← joint_angles.lookup "right_knee_angle"
      if thr.toQ ≤ lk ∧ thr.toQ ≤ rk then
        some { acc with
          total_rules := acc.total_rules + 2
          passed_count := acc.passed_count + 2
          passed_rules := acc.passed_rules ++ [("knees_extended", true)] }
      else
        some { acc with
          total_rules := acc.total_rules + 2
          failed_rules := acc.failed_rules ++ [("knees_extended", false)]
          issues := acc.issues ++ ["knees_bent"] }

/-- The `elbow_angle_min` block of `evaluate_pose`; same pattern as the knee
block with issue `elbows_bent`. -/
def elbowStep (joint_angles : List (String × ℚ)) (rules : List (String × RuleVal))
    (acc : EvalAcc) : Option EvalAcc :=
  match rules.lookup "elbow_angle_min" with
  | none => some acc
  | some thr => do
      let le ← joint_angles.lookup "left_elbow_angle"
      let re ← joint_angles.lookup "right_elbow_angle"
      if thr.toQ ≤ le ∧ thr.toQ ≤ re then
        some { acc with
          total_rules := acc.total_rules + 2
          passed_count := acc.passed_count + 2
          passed_rules := acc.passed_rules ++ [("elbows_extended", true)] }
      else
        some { acc with
          total_rules := acc.total_rules + 2
          failed_rules := acc.failed_rules ++ [("elbows_extended", false)]
          issues := acc.issues ++ ["elbows_bent"] }

/-- The `hip_height_above_shoulder` block of `evaluate_pose`: runs only when
the rule is present and truthy; compares the y of the hip midpoint against
the y of the shoulder midpoint (smaller y = higher). -/
def hipStep (landmarks : List (String × Vec3)) (rules : List (String × RuleVal))
    (acc : EvalAcc) : Option EvalAcc :=
  match rules.lookup "hip_height_above_shoulder" with
  | none => some acc
  | some v =>
      if v.truthy then do
        let lh ← landmarks.lookup "left_hip"
        let rh ← landmarks.lookup "right_hip"
        let ls ← landmarks.lookup "left_shoulder"
        let rs ← landmarks.lookup "right_shoulder"
        let mid_hip_y := (lh.y + rh.y) / 2
        let mid_shoulder_y := (ls.y + rs.y) / 2
        if mid_hip_y < mid_shoulder_y then
          some { acc with
            total_rules := acc.total_rules + 1
            passed_count := acc.passed_count + 1
            passed_rules := acc.passed_rules ++ [("hip_elevation", true)] }
        else
          some { acc with
            total_rules := acc.total_rules + 1
            failed_rules := acc.failed_rules ++ [("hip_elevation", false)]
            issues := acc.issues ++ ["hips_low"] }
      else some acc

/-- `SuryaNamaskarRuleEngine.evaluate_pose`: evaluates the three rule blocks
in source order, then `alignment_score = passed_count / total_rules * 100`
(or `0` when no rule applied), rounded to 2 decimals. `none` models the
`KeyError` raised when an input key required by a present rule is missing. -/
def evaluate_pose (landmarks : List (String × Vec3))
    (joint_angles : List (String × ℚ)) (rules : List (String × RuleVal)) :
    Option EvalResult := do
  let acc0 : EvalAcc := ⟨[], [], [], 0, 0⟩
  let acc1 ← kneeStep joint_angles rules acc0
  let acc2 ← elbowStep joint_angles rules acc1
  let acc3 ← hipStep landmarks rules acc2
  let alignment_score : ℚ :=
    if acc3.total_rules > 0 then
      (acc3.passed_count : ℚ) / (acc3.total_rules : ℚ) * 100
    else 0
  some { issues := acc3.issues
         alignment_score := round2 alignment_score
         passed_rules := acc3.passed_rules
         failed_rules := acc3.failed_rules }

/-!
## Safety adaptation engine (`core/safety_engine.py`)

A user profile carries an experience level and a list of condition codes;
`adapt_rules` reads them through `UserProfileManager.get_level` /
`get_conditions` (which return the raw profile fields).

The safety knowledge base maps a pose name to a dict of fields; the code
reads only the `contraindications` field (a list of condition codes) and
tests the entry for truthiness (`if not pose_data`).
-/

/-- A pose's entry in the safety knowledge base: field name ↦ list of
condition codes. An empty list is a falsy (empty) dict. -/
def PoseData := List (String × List String)

instance : DecidableEq PoseData := by
  unfold PoseData; infer_instance

/-- `pose_data.get('contraindications', [])`. -/
def contraListOf (pd : PoseData) : List String :=
  (List.lookup "contraindications" pd).getD []

/-- User profile fields consumed by `adapt_rules`. -/
structure UserProfile where
  level : String
  conditions : List String
  deriving DecidableEq, Repr

/-- `SafetyAdaptationEngine._init_condition_mappings`, condition table.
These per-condition reduction factors and `risk_increase` values are
defined by the code but never read by `adapt_rules`. -/
def condition_adaptations : List (String × List (String × ℚ)) :=
  [("back_pain",
    [("spine_extension_reduction", 20/100), ("backbend_reduction", 25/100),
     ("forward_bend_reduction", 15/100), ("hold_duration_max", 8),
     ("risk_increase", 1)]),
   ("high_bp",
    [("forward_fold_duration_max", 5), ("inversion_prohibited", 1),
     ("hold_duration_max", 5), ("risk_increase", 2)]),
   ("heart_ailments",
    [("intensity_reduction", 30/100), ("hold_duration_max", 5),
     ("backbend_reduction", 30/100), ("risk_increase", 2)]),
   ("recent_spinal_surgery",
    [("spine_extension_reduction", 50/100), ("backbend_reduction", 60/100),
     ("forward_bend_reduction", 40/100), ("twist_reduction", 50/100),
     ("risk_increase", 3)])]

/-- `SafetyAdaptationEngine._init_condition_mappings`, level table. -/
def level_adaptations : List (String × List (String × ℚ)) :=
  [("beginner", [("angle_tolerance", 10), ("threshold_relaxation", 10/100)]),
   ("intermediate", [("angle_tolerance", 5), ("threshold_relaxation", 0)]),
   ("advanced", [("angle_tolerance", -5), ("threshold_tightening", 5/100)])]

/-- `self.level_adaptations.get(level, {}).get('angle_tolerance', 0)`. -/
def angleTolerance (level : String) : ℚ :=
  (((level_adaptations.lookup level).getD []).lookup "angle_tolerance").getD 0

/-- `SafetyAdaptationEngine._check_contraindications`: scan the user's
conditions in order; the first one found in the pose's contraindication
list yields the rejection reason. `none` means the pose is allowed. -/
def check_contraindications (contraindications : List String) :
    List String → Option String
  | [] => none
  | c :: rest =>
      if contraindications.contains c then
        some ("Pose contraindicated due to " ++ c)
      else check_contraindications contraindications rest

/-- One iteration of the tolerance-adjustment loop in `adapt_rules`. Python's
`isinstance(value, (int, float))` holds for every `RuleVal` (Python `bool`
is a subtype of `int`), so the only guard left is `'angle' in key`; a `min`
key is lowered by the tolerance, any other angle key is raised by it. -/
def adaptEntry (tol : ℚ) (kv : String × RuleVal) : String × RuleVal :=
  if strContains kv.1 "angle" then
    if strContains kv.1 "min" then (kv.1, .num (kv.2.toQ - tol))
    else (kv.1, .num (kv.2.toQ + tol))
  else kv

/-- Result record of `SafetyAdaptationEngine.adapt_rules`. -/
structure AdaptResult where
  pose_allowed : Bool
  adapted_rules : List (String × RuleVal)
  reason : Option String
  safety_modifications : List String
  risk_level : String
  deriving DecidableEq, Repr

/-- `SafetyAdaptationEngine.adapt_rules`: poses without (truthy) safety
knowledge-base data pass through unchanged; contraindicated poses are
rejected with empty rules and high risk; otherwise the level tolerance is
applied to every angle-keyed rule of a deep copy of `base_rules`. -/
def adapt_rules (kb : List (String × PoseData)) (pose_name : String)
    (base_rules : List (String × RuleVal)) (profile : UserProfile) :
    AdaptResult :=
  match kb.lookup pose_name with
  | none =>
      { pose_allowed := true, adapted_rules := base_rules, reason := none
        safety_modifications := [], risk_level := "low" }
  | some pose_data =>
      if pose_data.isEmpty then
        { pose_allowed := true, adapted_rules := base_rules, reason := none
          safety_modifications := [], risk_level := "low" }
      else
        match check_contraindications (contraListOf pose_data) profile.conditions with
        | some reason =>
            { pose_allowed := false, adapted_rules := [], reason := some reason
              safety_modifications := [reason], risk_level := "high" }
        | none =>
            { pose_allowed := true
              adapted_rules :=
                base_rules.map (adaptEntry (angleTolerance profile.level))
              reason := none
              safety_modifications := []
              risk_level := "low" }

/-!
## Progress tracker (`core/progress_tracker.py`)

`YogaProgressTracker` keeps per-session rolling buffers. The session id and
timestamps (wall-clock values) and the JSON persistence of past sessions
are not modelled; the claims are about the buffers and the statistics
derived from them. `deque(maxlen=n)` is modelled by dropping from the front
after each append.
-/

/-- Append to a `deque(maxlen=cap)` of rationals: push at the back, evict
from the front beyond `cap`. -/
def dequeAppend (cap : ℕ) (l : List ℚ) (x : ℚ) : List ℚ :=
  (l ++ [x]).drop ((l.length + 1) - cap)

/-- Per-frame metrics consumed by `YogaProgressTracker.update` (the
wall-clock timestamp field is not modelled). -/
structure FrameMetrics where
  pose_name : String
  alignment_score : ℚ
  joint_angles : List (String × ℚ)
  deriving DecidableEq, Repr

/-- The rolling session state of `YogaProgressTracker`. `frame_scores`
stands for `frame_metrics_history` (capacity 1000); only fields the
statistics read are kept per frame. -/
structure TrackerState where
  frame_metrics_history : List FrameMetrics
  alignment_scores : List ℚ
  left_angles_history : List (List (String × ℚ))
  right_angles_history : List (List (String × ℚ))
  spine_extensions : List ℚ
  poses_performed : List String
  fatigue_window : List ℚ
  fatigue_detected : Bool
  deriving DecidableEq, Repr

/-- `YogaProgressTracker.start_session`: all rolling buffers cleared and the
fatigue flag reset (a fresh session id is assigned, not modelled). -/
def start_session : TrackerState :=
  { frame_metrics_history := [], alignment_scores := []
    left_angles_history := [], right_angles_history := []
    spine_extensions := [], poses_performed := []
    fatigue_window := [], fatigue_detected := false }

/-- The trigger condition checked by `_update_fatigue_detection` on the
fatigue window after appending the new score: once 24 samples are present,
the first half's mean must exceed 70 and the second half's mean must be
more than 15 points lower. -/
def fatigueTrigger (w : List ℚ) : Bool :=
  decide (24 ≤ w.length) &&
    (decide (70 < listMean (w.take 12)) &&
      decide (listMean (w.drop 12) < listMean (w.take 12) - 15))

/-- `YogaProgressTracker._update_fatigue_detection`: append the score to the
24-sample window; when the window is full and the trend condition holds,
set the sticky flag (it is never cleared here). -/
def update_fatigue_detection (s : TrackerState) (alignment_score : ℚ) :
    TrackerState :=
  let w := dequeAppend 24 s.fatigue_window alignment_score
  { s with
    fatigue_window := w
    fatigue_detected := if fatigueTrigger w then true else s.fatigue_detected }

/-- `YogaProgressTracker._track_angles`: bucket joint angles whose key
contains `left` (checked first) or `right`; append each side's bucket only
when it is nonempty; record spine extension when `spine_angle` is present. -/
def track_angles (s : TrackerState) (joint_angles : List (String × ℚ)) :
    TrackerState :=
  let left_angles := joint_angles.filter fun kv => strContains kv.1 "left"
  let right_angles := joint_angles.filter fun kv =>
    !strContains kv.1 "left" && strContains kv.1 "right"
  { s with
    left_angles_history :=
      if left_angles.isEmpty then s.left_angles_history
      else s.left_angles_history ++ [left_angles]
    right_angles_history :=
      if right_angles.isEmpty then s.right_angles_history
      else s.right_angles_history ++ [right_angles]
    spine_extensions :=
      match joint_angles.lookup "spine_angle" with
      | some spine_angle => s.spine_extensions ++ [180 - spine_angle]
      | none => s.spine_extensions }

/-- `YogaProgressTracker.update`: append the frame to the bounded history
and the score/pose buffers, then bucket the angles and update the fatigue
state. -/
def update (s : TrackerState) (fm : FrameMetrics) : TrackerState :=
  let s := { s with
    frame_metrics_history :=
      (s.frame_metrics_history ++ [fm]).drop
        ((s.frame_metrics_history.length + 1) - 1000)
    alignment_scores := s.alignment_scores ++ [fm.alignment_score]
    poses_performed :=
      if s.poses_performed.contains fm.pose_name then s.poses_performed
      else s.poses_performed ++ [fm.pose_name] }
  let s := track_angles s fm.joint_angles
  update_fatigue_detection s fm.alignment_score

/-- Feed a list of frames into a fresh session, in order. -/
def runSession (frames : List FrameMetrics) : TrackerState :=
  frames.foldl update start_session

/-- Keys occurring in a slice of one side's angle history, first occurrence
first, without duplicates (the Python code collects them into a `set`; the
statistics below are invariant under key order). -/
def collectKeys (side : List (List (String × ℚ))) : List String :=
  side.foldl
    (fun acc angles =>
      angles.foldl
        (fun acc2 kv => if acc2.contains kv.1 then acc2 else acc2 ++ [kv.1])
        acc)
    []

/-- Python slice `l[-50:]` on an angle history. -/
def lastFifty (l : List (List (String × ℚ))) : List (List (String × ℚ)) :=
  l.drop (l.length - 50)

/-- Per-key variances for one side of `compute_stability`: for every key in
the last-50 slice, collect the values of the samples containing the key and
keep the variance when at least 10 values are present. -/
def sideVariances (side : List (List (String × ℚ))) : List ℚ :=
  (collectKeys side).filterMap fun k =>
    let values := side.filterMap fun angles => angles.lookup k
    if 10 ≤ values.length then some (listVar values) else none

/-- `YogaProgressTracker.compute_stability`: short-circuits to `0.0` when
the left-side history holds fewer than 10 samples; otherwise averages the
per-key variances of both sides' last-50 slices and reports
`max(0, 100 - average_variance)` rounded to 2 decimals (`0.0` when no key
reaches 10 values). -/
def compute_stability (s : TrackerState) : ℚ :=
  if s.left_angles_history.length < 10 then 0
  else
    let all_variances :=
      sideVariances (lastFifty s.left_angles_history) ++
        sideVariances (lastFifty s.right_angles_history)
    if all_variances.isEmpty then 0
    else round2 (pyMax 0 (100 - listMean all_variances))

/-!
## Shared helper lemmas
-/

/-- A condition shared between the profile and the contraindication list
makes `_check_contraindications` return a rejection reason. -/
lemma check_contra_isSome_of_mem (contra conds : List String) (c : String)
    (h1 : c ∈ conds) (h2 : c ∈ contra) :
    ∃ msg, check_contraindications contra conds = some msg := by
  induction conds with
  | nil => cases h1
  | cons a rest ih =>
      by_cases ha : a ∈ contra
      · exact ⟨"Pose contraindicated due to " ++ a,
          by simp [check_contraindications, ha]⟩
      · rcases List.mem_cons.mp h1 with rfl | hr
        · exact absurd h2 ha
        · obtain ⟨msg, hm⟩ := ih hr
          exact ⟨msg, by simp [check_contraindications, ha, hm]⟩

/-- On an allowed pose with (truthy) safety data, `adapt_rules` maps the
level tolerance over the base rules. -/
lemma adapt_rules_allowed (kb : List (String × PoseData)) (pose_name : String)
    (base_rules : List (String × RuleVal)) (profile : UserProfile)
    (pd : PoseData) (hk : kb.lookup pose_name = some pd) (hne : ¬pd.isEmpty)
    (hok : check_contraindications (contraListOf pd) profile.conditions = none) :
    adapt_rules kb pose_name base_rules profile =
      { pose_allowed := true
        adapted_rules := base_rules.map (adaptEntry (angleTolerance profile.level))
        reason := none
        safety_modifications := []
        risk_level := "low" } := by
  simp [adapt_rules, hk, hne, hok]

/-!
## Claims
-/

/-- C9: `validate_angles` returns `true` iff every value of the angle map
lies in `[0, 180]`; a single out-of-range value anywhere makes it return
`false`. -/
theorem validate_angles_iff_all_in_range (angles : List (String × ℚ)) :
    validate_angles angles = true ↔ ∀ kv ∈ angles, 0 ≤ kv.2 ∧ kv.2 ≤ 180 := by
  simp [validate_angles, List.all_eq_true]

/-- C8 counterexample: for a pose name absent from the corrections
knowledge base, `generate_corrections` returns priority `"low"` even for a
three-issue list (the claim demands `"medium"` for every pose name). -/
theorem generate_corrections_unknown_pose_counterexample :
    (generate_corrections [] "parvatasana"
        ["knees_bent", "elbows_bent", "hips_low"]).priority_level = "low" ∧
    (generate_corrections [] "parvatasana"
        ["knees_bent", "elbows_bent", "hips_low"]).priority_level ≠ "medium" ∧
    2 < (["knees_bent", "elbows_bent", "hips_low"] : List String).length := by
  refine ⟨rfl, by decide, by decide⟩

/-- C8 (amended): for pose names whose corrections knowledge-base entry
exists and is truthy, `generate_corrections` returns priority `"medium"`
iff the issue list has more than 2 issues, else `"low"`; a pose name
without a truthy entry always yields `"low"`. -/
theorem generate_corrections_priority (kb : List (String × CorrPoseKnowledge))
    (pose_name : String) (issues : List String) (pk : CorrPoseKnowledge)
    (hk : kb.lookup pose_name = some pk) (hne : ¬pk.isEmpty) :
    (generate_corrections kb pose_name issues).priority_level =
      if 2 < issues.length then "medium" else "low" := by
  rcases hi : issues with _ | ⟨a, rest⟩
  · simp [generate_corrections, hk, hne]
  · simp [generate_corrections, hk, hne]

/-- C8 witness: a pose with a truthy knowledge-base entry and three issues
gets priority `"medium"`. -/
theorem generate_corrections_priority_witness :
    (generate_corrections
        [("parvatasana", [("correction_library", [("knees_bent", "Straighten your knees.")])])]
        "parvatasana" ["knees_bent", "elbows_bent", "hips_low"]).priority_level =
      "medium" := by
  have h := generate_corrections_priority
    [("parvatasana", [("correction_library", [("knees_bent", "Straighten your knees.")])])]
    "parvatasana" ["knees_bent", "elbows_bent", "hips_low"]
    [("correction_library", [("knees_bent", "Straighten your knees.")])]
    rfl (by decide)
  simpa using h

/-- C10: a pose name with no entry in the safety knowledge base passes
through `adapt_rules` untouched — allowed, low risk, `base_rules`
unmodified, no contraindication check and no tolerance adjustment,
whatever the user's level and conditions. -/
theorem adapt_rules_no_pose_data (kb : List (String × PoseData))
    (pose_name : String) (base_rules : List (String × RuleVal))
    (profile : UserProfile) (h : kb.lookup pose_name = none) :
    adapt_rules kb pose_name base_rules profile =
      { pose_allowed := true, adapted_rules := base_rules, reason := none
        safety_modifications := [], risk_level := "low" } := by
  simp [adapt_rules, h]

/-- C10 witness: a beginner with a serious condition still gets the base
rules back unmodified for a pose unknown to the safety knowledge base. -/
theorem adapt_rules_no_pose_data_witness :
    adapt_rules [] "pranamasana" [("knee_angle_min", .num 170)]
        ⟨"beginner", ["recent_spinal_surgery"]⟩ =
      { pose_allowed := true, adapted_rules := [("knee_angle_min", .num 170)]
        reason := none, safety_modifications := [], risk_level := "low" } :=
  adapt_rules_no_pose_data [] "pranamasana" [("knee_angle_min", .num 170)]
    ⟨"beginner", ["recent_spinal_surgery"]⟩ rfl

/-- C4: a user with a condition in the pose's contraindication list is
rejected: not allowed, high risk, empty adapted rules, and a reason is
given. -/
theorem adapt_rules_contraindicated (kb : List (String × PoseData))
    (pose_name : String) (base_rules : List (String × RuleVal))
    (profile : UserProfile) (pd : PoseData) (c : String)
    (hk : kb.lookup pose_name = some pd)
    (hc : c ∈ profile.conditions)
    (hcontra : c ∈ contraListOf pd) :
    (adapt_rules kb pose_name base_rules profile).pose_allowed = false ∧
    (adapt_rules kb pose_name base_rules profile).risk_level = "high" ∧
    (adapt_rules kb pose_name base_rules profile).adapted_rules = [] ∧
    ∃ msg, (adapt_rules kb pose_name base_rules profile).reason = some msg := by
  have hne : ¬pd.isEmpty := by
    intro he
    rw [List.isEmpty_iff] at he
    subst he
    simp [contraListOf, List.lookup] at hcontra
  obtain ⟨msg, hm⟩ :=
    check_contra_isSome_of_mem (contraListOf pd) profile.conditions c hc hcontra
  refine ⟨?_, ?_, ?_, ⟨msg, ?_⟩⟩ <;> simp [adapt_rules, hk, hne, hm]

/-- C4 witness: a user with `back_pain` is rejected from a pose whose
safety data lists `back_pain` as a contraindication. -/
theorem adapt_rules_contraindicated_witness :
    (adapt_rules [("bhujangasana", [("contraindications", ["back_pain", "high_bp"])])]
        "bhujangasana" [("elbow_angle_min", .num 150)]
        ⟨"intermediate", ["back_pain"]⟩).pose_allowed = false ∧
    (adapt_rules [("bhujangasana", [("contraindications", ["back_pain", "high_bp"])])]
        "bhujangasana" [("elbow_angle_min", .num 150)]
        ⟨"intermediate", ["back_pain"]⟩).risk_level = "high" ∧
    (adapt_rules [("bhujangasana", [("contraindications", ["back_pain", "high_bp"])])]
        "bhujangasana" [("elbow_angle_min", .num 150)]
        ⟨"intermediate", ["back_pain"]⟩).adapted_rules = [] ∧
    ∃ msg, (adapt_rules [("bhujangasana", [("contraindications", ["back_pain", "high_bp"])])]
        "bhujangasana" [("elbow_angle_min", .num 150)]
        ⟨"intermediate", ["back_pain"]⟩).reason = some msg :=
  adapt_rules_contraindicated
    [("bhujangasana", [("contraindications", ["back_pain", "high_bp"])])]
    "bhujangasana" [("elbow_angle_min", .num 150)]
    ⟨"intermediate", ["back_pain"]⟩
    [("contraindications", ["back_pain", "high_bp"])] "back_pain"
    rfl (by decide) (by decide)

/-- An unknown experience level selects no entry of `level_adaptations`, so
the angle tolerance defaults to `0`. -/
lemma angleTolerance_unknown (level : String) (h1 : level ≠ "beginner")
    (h2 : level ≠ "intermediate") (h3 : level ≠ "advanced") :
    angleTolerance level = 0 := by
  have e1 : (level == "beginner") = false := beq_eq_false_iff_ne.mpr h1
  have e2 : (level == "intermediate") = false := beq_eq_false_iff_ne.mpr h2
  have e3 : (level == "advanced") = false := beq_eq_false_iff_ne.mpr h3
  simp [angleTolerance, level_adaptations, List.lookup, e1, e2, e3]

/-- `adaptEntry` on an angle-containing key rewrites the value numerically. -/
lemma adaptEntry_eq_angle (tol : ℚ) (k : String) (v : RuleVal)
    (h : strContains k "angle" = true) :
    adaptEntry tol (k, v) =
      (k, RuleVal.num (if strContains k "min" then v.toQ - tol else v.toQ + tol)) := by
  unfold adaptEntry
  rw [if_pos h]
  split <;> simp [*]

/-- `adaptEntry` leaves keys without `angle` untouched. -/
lemma adaptEntry_eq_nonangle (tol : ℚ) (k : String) (v : RuleVal)
    (h : strContains k "angle" = false) :
    adaptEntry tol (k, v) = (k, v) := by
  unfold adaptEntry
  rw [if_neg]
  simp [h]

/-- Tolerance `0` keeps every rule numerically unchanged. -/
lemma map_adaptEntry_zero_toQ (rules : List (String × RuleVal)) :
    (rules.map (adaptEntry 0)).map (fun kv => (kv.1, kv.2.toQ)) =
      rules.map (fun kv => (kv.1, kv.2.toQ)) := by
  induction rules with
  | nil => rfl
  | cons kv t ih =>
      simp only [List.map_cons, ih]
      congr 1
      by_cases h : strContains kv.1 "angle"
      · rw [show kv = (kv.1, kv.2) from rfl, adaptEntry_eq_angle 0 kv.1 kv.2 h]
        split <;> simp [RuleVal.toQ]
      · rw [show kv = (kv.1, kv.2) from rfl,
          adaptEntry_eq_nonangle 0 kv.1 kv.2 (by simpa using h)]

/-- C2 (amended): for any level outside the three known ones, `adapt_rules`
on an allowed pose returns rules numerically equal to the base rules; for
level `"intermediate"` the code instead applies an angle tolerance of 5
(angle-keyed `min` thresholds are lowered by 5, other angle-keyed
thresholds raised by 5). -/
theorem adapt_rules_intermediate_and_unknown :
    (∀ (kb : List (String × PoseData)) (pose_name : String)
        (base_rules : List (String × RuleVal)) (profile : UserProfile),
      profile.level ≠ "beginner" → profile.level ≠ "intermediate" →
      profile.level ≠ "advanced" →
      (adapt_rules kb pose_name base_rules profile).pose_allowed = true →
      (adapt_rules kb pose_name base_rules profile).adapted_rules.map
          (fun kv => (kv.1, kv.2.toQ)) =
        base_rules.map (fun kv => (kv.1, kv.2.toQ))) ∧
    (∀ (kb : List (String × PoseData)) (pose_name : String)
        (base_rules : List (String × RuleVal)) (profile : UserProfile)
        (pd : PoseData) (k : String) (v : RuleVal),
      profile.level = "intermediate" →
      kb.lookup pose_name = some pd → ¬pd.isEmpty →
      check_contraindications (contraListOf pd) profile.conditions = none →
      (k, v) ∈ base_rules → strContains k "angle" = true →
      (k, RuleVal.num (if strContains k "min" then v.toQ - 5 else v.toQ + 5)) ∈
        (adapt_rules kb pose_name base_rules profile).adapted_rules) := by
  constructor
  · intro kb pose_name base_rules profile h1 h2 h3 hallowed
    rcases hk : kb.lookup pose_name with _ | pd
    · simp [adapt_rules, hk]
    · by_cases hpd : pd.isEmpty
      · simp [adapt_rules, hk, hpd]
      · rcases hok : check_contraindications (contraListOf pd) profile.conditions
          with _ | r
        · rw [adapt_rules_allowed kb pose_name base_rules profile pd hk hpd hok,
            angleTolerance_unknown profile.level h1 h2 h3]
          exact map_adaptEntry_zero_toQ base_rules
        · simp [adapt_rules, hk, hpd, hok] at hallowed
  · intro kb pose_name base_rules profile pd k v hlevel hk hpd hok hmem hangle
    rw [adapt_rules_allowed kb pose_name base_rules profile pd hk hpd hok, hlevel]
    have htol : angleTolerance "intermediate" = 5 := rfl
    rw [htol, ← adaptEntry_eq_angle 5 k v hangle]
    exact List.mem_map_of_mem _ hmem

/-- C2 counterexample: an intermediate profile on an allowed pose with
safety data gets `knee_angle_min` lowered from 170 to 165 — not numerically
unchanged as the claim states. -/
theorem adapt_rules_intermediate_counterexample :
    (adapt_rules [("parvatasana", [("contraindications", [])])] "parvatasana"
        [("knee_angle_min", .num 170)] ⟨"intermediate", []⟩).adapted_rules =
      [("knee_angle_min", .num 165)] ∧ (165 : ℚ) ≠ 170 := by
  constructor
  · with_unfolding_all decide
  · with_unfolding_all decide

/-- C2 witness: an unrecognized level `"expert"` leaves the rules
numerically unchanged, while `"intermediate"` moves `knee_angle_min` from
170 to 165 on the same allowed pose. -/
theorem adapt_rules_intermediate_and_unknown_witness :
    ((adapt_rules [("parvatasana", [("contraindications", [])])] "parvatasana"
        [("knee_angle_min", .num 170)] ⟨"expert", []⟩).adapted_rules.map
          (fun kv => (kv.1, kv.2.toQ)) =
      [("knee_angle_min", RuleVal.num 170)].map (fun kv => (kv.1, kv.2.toQ))) ∧
    ("knee_angle_min", RuleVal.num 165) ∈
      (adapt_rules [("parvatasana", [("contraindications", [])])] "parvatasana"
        [("knee_angle_min", .num 170)] ⟨"intermediate", []⟩).adapted_rules := by
  constructor
  · exact adapt_rules_intermediate_and_unknown.1
      [("parvatasana", [("contraindications", [])])] "parvatasana"
      [("knee_angle_min", .num 170)] ⟨"expert", []⟩
      (by decide) (by decide) (by decide) (by with_unfolding_all decide)
  · have h := adapt_rules_intermediate_and_unknown.2
      [("parvatasana", [("contraindications", [])])] "parvatasana"
      [("knee_angle_min", .num 170)] ⟨"intermediate", []⟩
      [("contraindications", [])] "knee_angle_min" (RuleVal.num 170)
      rfl rfl (by decide) rfl (by decide) (by decide)
    have he : RuleVal.num
        (if strContains "knee_angle_min" "min" then (RuleVal.num 170).toQ - 5
         else (RuleVal.num 170).toQ + 5) = RuleVal.num 165 := by
      with_unfolding_all decide
    rwa [he] at h

/-- C5 (amended): on an allowed pose with safety data, a beginner profile
shifts only angle-keyed numeric thresholds — `min` keys lowered by 10,
other angle keys raised by 10 — and leaves every key without `angle` in its
name (such as `spine_extension_min`) unchanged; an advanced profile applies
the reverse sign with magnitude 5. -/
theorem adapt_rules_beginner_advanced (kb : List (String × PoseData))
    (pose_name : String) (base_rules : List (String × RuleVal))
    (profile : UserProfile) (pd : PoseData) (k : String) (v : RuleVal)
    (hk : kb.lookup pose_name = some pd) (hne : ¬pd.isEmpty)
    (hok : check_contraindications (contraListOf pd) profile.conditions = none)
    (hmem : (k, v) ∈ base_rules) :
    (profile.level = "beginner" →
      (strContains k "angle" = true →
        (k, RuleVal.num (if strContains k "min" then v.toQ - 10 else v.toQ + 10)) ∈
          (adapt_rules kb pose_name base_rules profile).adapted_rules) ∧
      (strContains k "angle" = false →
        (k, v) ∈ (adapt_rules kb pose_name base_rules profile).adapted_rules)) ∧
    (profile.level = "advanced" →
      (strContains k "angle" = true →
        (k, RuleVal.num (if strContains k "min" then v.toQ + 5 else v.toQ - 5)) ∈
          (adapt_rules kb pose_name base_rules profile).adapted_rules) ∧
      (strContains k "angle" = false →
        (k, v) ∈ (adapt_rules kb pose_name base_rules profile).adapted_rules)) := by
  rw [adapt_rules_allowed kb pose_name base_rules profile pd hk hne hok]
  constructor
  · intro hlevel
    rw [hlevel]
    have htol : angleTolerance "beginner" = 10 := rfl
    constructor
    · intro hangle
      rw [htol, ← adaptEntry_eq_angle 10 k v hangle]
      exact List.mem_map_of_mem _ hmem
    · intro hangle
      rw [htol, ← adaptEntry_eq_nonangle 10 k v hangle]
      exact List.mem_map_of_mem _ hmem
  · intro hlevel
    rw [hlevel]
    have htol : angleTolerance "advanced" = -5 := rfl
    constructor
    · intro hangle
      have he := adaptEntry_eq_angle (-5) k v hangle
      rw [htol]
      have : RuleVal.num (if strContains k "min" then v.toQ + 5 else v.toQ - 5) =
          RuleVal.num (if strContains k "min" then v.toQ - (-5) else v.toQ + (-5)) := by
        split <;> ring_nf
      rw [this, ← he]
      exact List.mem_map_of_mem _ hmem
    · intro hangle
      rw [htol, ← adaptEntry_eq_nonangle (-5) k v hangle]
      exact List.mem_map_of_mem _ hmem

/-- C5 counterexample: a beginner's `spine_extension_min` (a `*_min` key
without `angle` in its name) is left at 10, not lowered by 10 to 0 as the
claim states. -/
theorem adapt_rules_beginner_counterexample :
    (adapt_rules [("hasta_uttanasana", [("contraindications", [])])]
        "hasta_uttanasana" [("spine_extension_min", .num 10)]
        ⟨"beginner", []⟩).adapted_rules = [("spine_extension_min", .num 10)] ∧
    RuleVal.num (10 : ℚ) ≠ RuleVal.num 0 := by
  constructor
  · with_unfolding_all decide
  · decide

/-- C5 witness: on an allowed pose, a beginner gets `knee_angle_min`
170 → 160 and `spine_extension_min` unchanged, and an advanced profile gets
`knee_angle_min` 170 → 175. -/
theorem adapt_rules_beginner_advanced_witness :
    ("knee_angle_min", RuleVal.num 160) ∈
      (adapt_rules [("parvatasana", [("contraindications", [])])] "parvatasana"
        [("knee_angle_min", .num 170), ("spine_extension_min", .num 10)]
        ⟨"beginner", []⟩).adapted_rules ∧
    ("spine_extension_min", RuleVal.num 10) ∈
      (adapt_rules [("parvatasana", [("contraindications", [])])] "parvatasana"
        [("knee_angle_min", .num 170), ("spine_extension_min", .num 10)]
        ⟨"beginner", []⟩).adapted_rules ∧
    ("knee_angle_min", RuleVal.num 175) ∈
      (adapt_rules [("parvatasana", [("contraindications", [])])] "parvatasana"
        [("knee_angle_min", .num 170), ("spine_extension_min", .num 10)]
        ⟨"advanced", []⟩).adapted_rules := by
  refine ⟨?_, ?_, ?_⟩
  · have h := (adapt_rules_beginner_advanced
      [("parvatasana", [("contraindications", [])])] "parvatasana"
      [("knee_angle_min", .num 170), ("spine_extension_min", .num 10)]
      ⟨"beginner", []⟩ [("contraindications", [])] "knee_angle_min"
      (RuleVal.num 170) rfl (by decide) rfl (by decide)).1 rfl
    have h1 := h.1 (by decide)
    have he : RuleVal.num
        (if strContains "knee_angle_min" "min" then (RuleVal.num 170).toQ - 10
         else (RuleVal.num 170).toQ + 10) = RuleVal.num 160 := by
      with_unfolding_all decide
    rwa [he] at h1
  · have h := (adapt_rules_beginner_advanced
      [("parvatasana", [("contraindications", [])])] "parvatasana"
      [("knee_angle_min", .num 170), ("spine_extension_min", .num 10)]
      ⟨"beginner", []⟩ [("contraindications", [])] "spine_extension_min"
      (RuleVal.num 10) rfl (by decide) rfl (by decide)).1 rfl
    exact h.2 (by decide)
  · have h := (adapt_rules_beginner_advanced
      [("parvatasana", [("contraindications", [])])] "parvatasana"
      [("knee_angle_min", .num 170), ("spine_extension_min", .num 10)]
      ⟨"advanced", []⟩ [("contraindications", [])] "knee_angle_min"
      (RuleVal.num 170) rfl (by decide) rfl (by decide)).2 rfl
    have h1 := h.1 (by decide)
    have he : RuleVal.num
        (if strContains "knee_angle_min" "min" then (RuleVal.num 170).toQ + 5
         else (RuleVal.num 170).toQ - 5) = RuleVal.num 175 := by
      with_unfolding_all decide
    rwa [he] at h1

/-- Rounding preserves zero. -/
lemma round2_zero : round2 0 = 0 := by
  with_unfolding_all decide

/-- C1 (amended): the per-side sub-rules are all-or-nothing — when exactly
one of the two knee angles meets `knee_angle_min`, neither knee sub-rule is
credited, so with `knee_angle_min` as the only rule the alignment score is
0.0 (not 50.0) and the issue `knees_bent` is reported; `elbow_angle_min`
behaves the same way. -/
theorem evaluate_pose_one_sided_failure :
    (∀ (landmarks : List (String × Vec3)) (joint_angles : List (String × ℚ))
        (v : RuleVal) (lk rk : ℚ),
      joint_angles.lookup "left_knee_angle" = some lk →
      joint_angles.lookup "right_knee_angle" = some rk →
      ((v.toQ ≤ lk ∧ rk < v.toQ) ∨ (lk < v.toQ ∧ v.toQ ≤ rk)) →
      evaluate_pose landmarks joint_angles [("knee_angle_min", v)] =
        some { issues := ["knees_bent"], alignment_score := 0,
               passed_rules := [], failed_rules := [("knees_extended", false)] }) ∧
    (∀ (landmarks : List (String × Vec3)) (joint_angles : List (String × ℚ))
        (v : RuleVal) (le re : ℚ),
      joint_angles.lookup "left_elbow_angle" = some le →
      joint_angles.lookup "right_elbow_angle" = some re →
      ((v.toQ ≤ le ∧ re < v.toQ) ∨ (le < v.toQ ∧ v.toQ ≤ re)) →
      evaluate_pose landmarks joint_angles [("elbow_angle_min", v)] =
        some { issues := ["elbows_bent"], alignment_score := 0,
               passed_rules := [], failed_rules := [("elbows_extended", false)] }) := by
  constructor
  · intro landmarks joint_angles v lk rk hl hr hone
    have hfail : ¬(v.toQ ≤ lk ∧ v.toQ ≤ rk) := by
      rcases hone with ⟨h1, h2⟩ | ⟨h1, h2⟩
      · exact fun hc => absurd hc.2 (not_le.mpr h2)
      · exact fun hc => absurd hc.1 (not_le.mpr h1)
    have hknee : kneeStep joint_angles [("knee_angle_min", v)] ⟨[], [], [], 0, 0⟩ =
        some ⟨["knees_bent"], [], [("knees_extended", false)], 2, 0⟩ := by
      unfold kneeStep
      simp [hl, hr, hfail]
    have he : List.lookup "elbow_angle_min" [("knee_angle_min", v)] = none := rfl
    have hh : List.lookup "hip_height_above_shoulder" [("knee_angle_min", v)] = none := rfl
    unfold evaluate_pose
    simp only [hknee, Option.some_bind]
    simp [elbowStep, hipStep, he, hh]
    norm_num [round2_zero]
  · intro landmarks joint_angles v le re hl hr hone
    have hfail : ¬(v.toQ ≤ le ∧ v.toQ ≤ re) := by
      rcases hone with ⟨h1, h2⟩ | ⟨h1, h2⟩
      · exact fun hc => absurd hc.2 (not_le.mpr h2)
      · exact fun hc => absurd hc.1 (not_le.mpr h1)
    have helbow : elbowStep joint_angles [("elbow_angle_min", v)] ⟨[], [], [], 0, 0⟩ =
        some ⟨["elbows_bent"], [], [("elbows_extended", false)], 2, 0⟩ := by
      unfold elbowStep
      simp [hl, hr, hfail]
    have hk : List.lookup "knee_angle_min" [("elbow_angle_min", v)] = none := rfl
    have hh : List.lookup "hip_height_above_shoulder" [("elbow_angle_min", v)] = none := rfl
    unfold evaluate_pose
    simp only [kneeStep, hk]
    simp [helbow, hipStep, hh]
    norm_num [round2_zero]

/-- C1 counterexample: left knee 175 passes the 170 threshold, right knee
160 fails it; with `knee_angle_min` as the only rule the score is 0.0, not
the 50.0 the claim states. -/
theorem evaluate_pose_one_sided_counterexample :
    evaluate_pose [] [("left_knee_angle", 175), ("right_knee_angle", 160)]
        [("knee_angle_min", .num 170)] =
      some { issues := ["knees_bent"], alignment_score := 0,
             passed_rules := [], failed_rules := [("knees_extended", false)] } ∧
    (0 : ℚ) ≠ 50 := by
  constructor
  · with_unfolding_all decide
  · decide

/-- C1 witness: the one-sided-knee and one-sided-elbow cases at concrete
angles both score 0.0. -/
theorem evaluate_pose_one_sided_failure_witness :
    evaluate_pose [] [("left_knee_angle", 175), ("right_knee_angle", 160)]
        [("knee_angle_min", .num 170)] =
      some { issues := ["knees_bent"], alignment_score := 0,
             passed_rules := [], failed_rules := [("knees_extended", false)] } ∧
    evaluate_pose [] [("left_elbow_angle", 150), ("right_elbow_angle", 178)]
        [("elbow_angle_min", .num 170)] =
      some { issues := ["elbows_bent"], alignment_score := 0,
             passed_rules := [], failed_rules := [("elbows_extended", false)] } := by
  constructor
  · exact evaluate_pose_one_sided_failure.1 []
      [("left_knee_angle", 175), ("right_knee_angle", 160)] (.num 170) 175 160
      (by with_unfolding_all decide) (by with_unfolding_all decide)
      (Or.inl (by constructor <;> with_unfolding_all decide))
  · exact evaluate_pose_one_sided_failure.2 []
      [("left_elbow_angle", 150), ("right_elbow_angle", 178)] (.num 170) 150 178
      (by with_unfolding_all decide) (by with_unfolding_all decide)
      (Or.inr (by constructor <;> with_unfolding_all decide))

/-- C3 (amended): when a key required by a present rule is missing from the
input maps, `evaluate_pose` does not return a well-formed result — the
missing-key access is a `KeyError` (modelled as `none`), not a skipped
rule. Shown for `left_knee_angle` under `knee_angle_min` and for `left_hip`
under a truthy `hip_height_above_shoulder`. -/
theorem evaluate_pose_missing_key :
    (∀ (landmarks : List (String × Vec3)) (joint_angles : List (String × ℚ))
        (rules : List (String × RuleVal)) (v : RuleVal),
      rules.lookup "knee_angle_min" = some v →
      joint_angles.lookup "left_knee_angle" = none →
      evaluate_pose landmarks joint_angles rules = none) ∧
    (∀ (landmarks : List (String × Vec3)) (joint_angles : List (String × ℚ))
        (rules : List (String × RuleVal)) (v : RuleVal),
      rules.lookup "knee_angle_min" = none →
      rules.lookup "elbow_angle_min" = none →
      rules.lookup "hip_height_above_shoulder" = some v →
      v.truthy = true →
      landmarks.lookup "left_hip" = none →
      evaluate_pose landmarks joint_angles rules = none) := by
  constructor
  · intro landmarks joint_angles rules v hv hl
    unfold evaluate_pose kneeStep
    simp [hv, hl]
  · intro landmarks joint_angles rules v hk he hv htruthy hl
    unfold evaluate_pose kneeStep elbowStep hipStep
    simp [hk, he, hv, htruthy, hl]

/-- C3 counterexample: with `knee_angle_min` present and an empty
joint-angles map, `evaluate_pose` produces no result (a `KeyError`) instead
of treating the rule as not applicable. -/
theorem evaluate_pose_missing_key_counterexample :
    evaluate_pose [] [] [("knee_angle_min", .num 170)] = none := by
  with_unfolding_all decide

/-- C3 witness: both missing-key cases at concrete inputs. -/
theorem evaluate_pose_missing_key_witness :
    evaluate_pose [] [] [("knee_angle_min", .num 170)] = none ∧
    evaluate_pose [] [] [("hip_height_above_shoulder", .flag true)] = none := by
  constructor
  · exact evaluate_pose_missing_key.1 [] [] [("knee_angle_min", .num 170)]
      (.num 170) rfl rfl
  · exact evaluate_pose_missing_key.2 [] [] [("hip_height_above_shoulder", .flag true)]
      (.flag true) rfl rfl rfl rfl rfl

/-- Appending to a capped deque yields `min (length + 1) cap` elements. -/
lemma dequeAppend_length (cap : ℕ) (l : List ℚ) (x : ℚ) :
    (dequeAppend cap l x).length = min (l.length + 1) cap := by
  simp [dequeAppend]
  omega

/-- How one `update` transforms the fatigue state: the window is the capped
append of the new score, and the flag is set when the trigger fires on the
new window, otherwise kept. -/
lemma update_fatigue_eq (s : TrackerState) (fm : FrameMetrics) :
    (update s fm).fatigue_window =
      dequeAppend 24 s.fatigue_window fm.alignment_score ∧
    (update s fm).fatigue_detected =
      (if fatigueTrigger (dequeAppend 24 s.fatigue_window fm.alignment_score)
       then true else s.fatigue_detected) := by
  unfold update track_angles update_fatigue_detection
  constructor <;> rfl

/-- A fired trigger needs a full window of 24 samples. -/
lemma fatigueTrigger_length (w : List ℚ) (h : fatigueTrigger w = true) :
    24 ≤ w.length := by
  unfold fatigueTrigger at h
  simp only [Bool.and_eq_true, decide_eq_true_eq] at h
  exact h.1

/-- Invariant along a fold of updates: the window grows by at most one per
frame, and the flag can only be `true` if it already was or at least 24
scores are available. -/
lemma foldl_update_fatigue (frames : List FrameMetrics) :
    ∀ s : TrackerState,
      (frames.foldl update s).fatigue_window.length ≤
        s.fatigue_window.length + frames.length ∧
      ((frames.foldl update s).fatigue_detected = true →
        s.fatigue_detected = true ∨
          24 ≤ s.fatigue_window.length + frames.length) := by
  induction frames with
  | nil => exact fun s => ⟨by simp, fun h => Or.inl h⟩
  | cons f t ih =>
      intro s
      have hw : (update s f).fatigue_window.length =
          min (s.fatigue_window.length + 1) 24 := by
        rw [(update_fatigue_eq s f).1, dequeAppend_length]
      obtain ⟨ih1, ih2⟩ := ih (update s f)
      rw [List.foldl_cons]
      constructor
      · have : (update s f).fatigue_window.length + t.length ≤
            s.fatigue_window.length + (f :: t).length := by
          simp only [List.length_cons]
          omega
        exact le_trans ih1 this
      · intro hd
        rcases ih2 hd with h | h
        · rw [(update_fatigue_eq s f).2] at h
          by_cases ht : fatigueTrigger (dequeAppend 24 s.fatigue_window f.alignment_score) = true
          · have h24 := fatigueTrigger_length _ ht
            rw [dequeAppend_length] at h24
            right
            simp only [List.length_cons]
            omega
          · rw [if_neg ht] at h
            exact Or.inl h
        · right
          simp only [List.length_cons]
          omega

/-- C6: within one session `fatigue_detected` stays `false` while fewer
than 24 frames have been recorded; any update whose resulting 24-sample
window has a first-half mean above 70 and a second-half mean more than 15
points lower sets the flag; the flag is sticky across updates; and
`start_session` resets it. -/
theorem fatigue_detection_claim :
    (∀ frames : List FrameMetrics, frames.length < 24 →
      (runSession frames).fatigue_detected = false) ∧
    (∀ (s : TrackerState) (fm : FrameMetrics),
      fatigueTrigger (dequeAppend 24 s.fatigue_window fm.alignment_score) = true →
      (update s fm).fatigue_detected = true) ∧
    (∀ (s : TrackerState) (fm : FrameMetrics),
      s.fatigue_detected = true → (update s fm).fatigue_detected = true) ∧
    start_session.fatigue_detected = false := by
  refine ⟨?_, ?_, ?_, rfl⟩
  · intro frames hlen
    by_contra hne
    have hd : (runSession frames).fatigue_detected = true := by
      rcases Bool.eq_false_or_eq_true (runSession frames).fatigue_detected with h | h
      · exact h
      · exact absurd h hne
    rcases (foldl_update_fatigue frames start_session).2 hd with h | h
    · simp [start_session] at h
    · simp [start_session] at h
      omega
  · intro s fm ht
    rw [(update_fatigue_eq s fm).2, if_pos ht]
  · intro s fm hd
    rw [(update_fatigue_eq s fm).2]
    split
    · rfl
    · exact hd

/-- C6 witness: 23 recorded frames never set the flag, and an update that
completes a window of twelve 85-scores followed by twelve 60-scores sets
it. -/
theorem fatigue_detection_claim_witness :
    (runSession (List.replicate 23 ⟨"parvatasana", 85, []⟩)).fatigue_detected =
      false ∧
    (update
        { frame_metrics_history := [], alignment_scores := []
          left_angles_history := [], right_angles_history := []
          spine_extensions := [], poses_performed := []
          fatigue_window := List.replicate 12 85 ++ List.replicate 11 60
          fatigue_detected := false }
        ⟨"parvatasana", 60, []⟩).fatigue_detected = true := by
  constructor
  · exact fatigue_detection_claim.1 (List.replicate 23 ⟨"parvatasana", 85, []⟩)
      (by simp)
  · exact fatigue_detection_claim.2.1 _ ⟨"parvatasana", 60, []⟩
      (by with_unfolding_all decide)

/-- C7 (amended): `compute_stability` returns 0.0 whenever the left-side
angle history holds fewer than 10 samples — the right-side history length
is never checked. -/
theorem compute_stability_left_short (s : TrackerState)
    (h : s.left_angles_history.length < 10) : compute_stability s = 0 := by
  simp [compute_stability, h]

/-- C7 counterexample: ten frames carrying only a left-knee angle leave the
right-side history empty (fewer than 10 samples), yet `compute_stability`
returns 100.0, not the 0.0 the claim requires for that case. -/
theorem compute_stability_right_short_counterexample :
    (runSession (List.replicate 10
        ⟨"parvatasana", 80, [("left_knee_angle", 170)]⟩)).right_angles_history.length
      < 10 ∧
    compute_stability (runSession (List.replicate 10
        ⟨"parvatasana", 80, [("left_knee_angle", 170)]⟩)) = 100 ∧
    (100 : ℚ) ≠ 0 := by
  refine ⟨by with_unfolding_all decide, by with_unfolding_all decide, by decide⟩

/-- C7 witness: a fresh session has an empty left history and stability
0.0. -/
theorem compute_stability_left_short_witness :
    compute_stability start_session = 0 :=
  compute_stability_left_short start_session (by decide)

end Gaara
